import Mathlib

/-!
Shallow embedding of the conversational agent core of this repository:
the session memory (`app/agent/memory.py`), the LLM adapter
(`app/agent/llm_client.py`), the function registry
(`app/agent/function_registry.py`) and the orchestrator
(`app/agent/router.py`, `process_chat`).

Redis is modelled as the three per-session records (state, history,
context) in a `Store`; an absent key is `none`.  JSON values occurring in
arguments are modelled by `Val`; a JSON object field that is absent and a
field that is present with value null are both modelled as `Option.none`
(the code reads every such field through `dict.get` with a default).
The LLM transport, the backend groups endpoint and the registered
executor are opaque inputs of the functions that call them.  Access-token
bookkeeping on the shared backend client has no effect on any session
record and is not modelled.
-/

namespace Chatbot

/-- A JSON scalar appearing in collected or dispatched arguments. -/
inductive Val where
  | str (s : String)
  | int (n : Int)
deriving DecidableEq

/-- A JSON object used as an argument mapping, in insertion order. -/
abbrev Args := List (String × Val)

/-- Python `k in d` for an argument mapping. -/
def hasKey (args : Args) (k : String) : Bool :=
  args.any (fun p => p.1 = k)

/-- One history entry, `{"role": ..., "content": ...}`. -/
structure Msg where
  role : String
  content : String
deriving DecidableEq

/-- The session-state record stored under `chat:<sid>:state`
    (`memory.py`, `set_session_state`). -/
structure SessionState where
  current_function : Option String
  collected_arguments : Args
  missing_fields : List String
  status : String
deriving DecidableEq

/-- Default returned by `get_session_state` when the key is absent. -/
def default_session_state : SessionState :=
  { current_function := none
    collected_arguments := []
    missing_fields := []
    status := "idle" }

/-- A group as stored in the cached context (router.py lines 48-55). -/
structure Group where
  id : Option Val
  name : Option Val
  icon : Option Val
deriving DecidableEq

/-- A raw group object of the backend response (`g_id`/`gname`/`g_icon`). -/
structure BackendGroup where
  g_id : Option Val
  gname : Option Val
  g_icon : Option Val
deriving DecidableEq

/-- The backend reply to `POST /groups/`: `status` and `data.groups`. -/
structure GroupsResponse where
  status : Option String
  data_groups : Option (List BackendGroup)
deriving DecidableEq

/-- The cached restaurant context record (`chat:<sid>:context`).  The
    dict always carries `restaurant_id` and `groups`, so a stored record
    is a non-empty dict and Python's truthiness test on a cached value
    is `Option.isSome` here. -/
structure RestaurantContext where
  restaurant_id : Int
  groups : List Group
deriving DecidableEq

/-- The three Redis records of one session. -/
structure Store where
  state : Option SessionState
  history : List Msg
  context : Option RestaurantContext
deriving DecidableEq

/-- `MemoryManager.get_session_state`. -/
def get_session_state (store : Store) : SessionState :=
  store.state.getD default_session_state

/-- `MemoryManager.add_to_history`: append, then keep the last 20. -/
def add_to_history (history : List Msg) (role : String) (content : String) :
    List Msg :=
  let h := history ++ [{ role := role, content := content }]
  if 20 < h.length then h.drop (h.length - 20) else h

/-- `MemoryManager.clear_all`: delete all three records. -/
def clear_all : Store :=
  { state := none, history := [], context := none }

/-- A parsed JSON object emitted by the LLM, fields read via `get`. -/
structure LLMOutput where
  type : Option String
  message : Option String
  missing_fields : Option (List String)
  current_function : Option String
  partial_arguments : Option Args
  name : Option String
  arguments : Option Args
deriving DecidableEq

/-- The pydantic `LLMResponse` model (`schemas.py`). -/
structure LLMResponse where
  type : String
  message : Option String
  missing_fields : Option (List String)
  current_function : Option String
  partial_arguments : Option Args
  name : Option String
  arguments : Option Args
deriving DecidableEq

/-- `LLMClient._validate_llm_response`. -/
def validate_llm_response (o : LLMOutput) : LLMResponse :=
  if o.type = some "ask_user" then
    { type := "ask_user"
      message := some (o.message.getD "")
      missing_fields := some (o.missing_fields.getD [])
      current_function := o.current_function
      partial_arguments := some (o.partial_arguments.getD [])
      name := none
      arguments := none }
  else if o.type = some "call_function" then
    { type := "call_function"
      message := none
      missing_fields := none
      current_function := none
      partial_arguments := none
      name := o.name
      arguments := some (o.arguments.getD []) }
  else
    { type := "ask_user"
      message := some "I need more information. What would you like to do?"
      missing_fields := some []
      current_function := none
      partial_arguments := some []
      name := none
      arguments := none }

/-- What the LLM transport produced: the reply content failed
    `json.loads`, or it parsed to a non-object JSON value (a Python
    list/str/int/float/NoneType — `py_type` is that type's name), or it
    parsed to an object. -/
inductive OracleRaw where
  | unparseable
  | non_object (py_type : String)
  | parsed (o : LLMOutput)
deriving DecidableEq

/-- One oracle round trip: a transport/processing exception (httpx error
    or any other exception before parsing), or a reply. -/
inductive OracleCall where
  | transport_error (e : String)
  | ok (raw : OracleRaw)
deriving DecidableEq

/-- The fallback object built in `get_completion` on a JSON parse error. -/
def parse_error_fallback : LLMOutput :=
  { type := some "ask_user"
    message := some "I didn't understand that clearly. Could you rephrase?"
    missing_fields := some []
    current_function := none
    partial_arguments := some []
    name := none
    arguments := none }

/-- `LLMClient.get_completion`: a transport failure is re-raised as an
    exception; unparseable content is replaced by the fallback object;
    content that parses to a non-object JSON value escapes the
    `json.JSONDecodeError` handler, makes `_validate_llm_response` hit
    an `AttributeError` on `.get`, and the generic handler re-raises it
    as an "LLM processing error" exception; every parsed object goes
    through `_validate_llm_response`. -/
def get_completion : OracleCall → Except String LLMResponse
  | .transport_error e => .error ("LLM API error: " ++ e)
  | .ok .unparseable => .ok (validate_llm_response parse_error_fallback)
  | .ok (.non_object t) =>
      .error ("LLM processing error: '" ++ t ++ "' object has no attribute 'get'")
  | .ok (.parsed o) => .ok (validate_llm_response o)

/-- `FunctionSpec` (`function_registry.py`). -/
structure FunctionSpec where
  name : String
  description : String
  parameters : Args
deriving DecidableEq

/-- The spec dict passed to `register_function`, fields read via `get`. -/
structure SpecInput where
  description : Option String
  parameters : Option Args
deriving DecidableEq

/-- The registry's `_functions` dict: name-keyed, insertion ordered. -/
abbrev Registry := List (String × FunctionSpec)

/-- The `FunctionSpec` built by `register_function` from the spec dict. -/
def mk_function_spec (name : String) (spec : SpecInput) : FunctionSpec :=
  { name := name
    description := spec.description.getD ""
    parameters := spec.parameters.getD [] }

/-- `FunctionRegistry.register_function`: `self._functions[name] = spec`,
    with Python dict assignment semantics (overwrite in place if the key
    exists, else append). -/
def register_function (reg : Registry) (name : String) (spec : SpecInput) :
    Registry :=
  if reg.any (fun p => p.1 = name) then
    reg.map (fun p => if p.1 = name then (name, mk_function_spec name spec) else p)
  else
    reg ++ [(name, mk_function_spec name spec)]

/-- Lookup in the `_functions` dict. -/
def lookup_function (reg : Registry) (name : String) : Option FunctionSpec :=
  (reg.find? (fun p => p.1 = name)).map (fun p => p.2)

/-- `FUNCTIONS_NEEDING_GROUPS` (router.py lines 12-15). -/
def FUNCTIONS_NEEDING_GROUPS : List String :=
  ["create_menu_item", "get_menu_items"]

/-- Python `function_name in FUNCTIONS_NEEDING_GROUPS` where
    `function_name` may be `None`. -/
def needs_groups : Option String → Bool
  | none => false
  | some f => FUNCTIONS_NEEDING_GROUPS.contains f

/-- `fetch_restaurant_context` (router.py lines 18-65).  Returns the
    context, the updated store, and whether the backend groups endpoint
    was called.  `backend` is the opaque reply the backend would give to
    `POST /groups/` on this turn. -/
def fetch_restaurant_context (store : Store) (restaurant_id : Int)
    (function_name : Option String) (backend : GroupsResponse) :
    RestaurantContext × Store × Bool :=
  match store.context with
  | some cached => (cached, store, false)
  | none =>
    if needs_groups function_name then
      let groups : List Group :=
        if backend.status = some "200" then
          (backend.data_groups.getD []).map
            (fun g => { id := g.g_id, name := g.gname, icon := g.g_icon })
        else []
      let context : RestaurantContext :=
        { restaurant_id := restaurant_id, groups := groups }
      (context, { store with context := some context }, true)
    else
      let context : RestaurantContext :=
        { restaurant_id := restaurant_id, groups := [] }
      (context, { store with context := some context }, false)

/-- The `ChatRequest` model (`schemas.py`). -/
structure ChatRequest where
  session_id : Option String
  restaurant_id : Int
  owner_id : Int
  message : String
deriving DecidableEq

/-- The `ChatResponse` model (`schemas.py`); `session_id` is the
    identity of the session being modelled and is omitted. -/
structure ChatResponse where
  type : String
  reply : String
  «function» : Option String
  missing_fields : Option (List String)
deriving DecidableEq

/-- Ghost observations of one `process_chat` run: whether the oracle was
    called, whether the backend groups endpoint was called, and the
    exact (name, arguments) passed to `execute_function`, if any. -/
structure Trace where
  oracle_called : Bool
  groups_fetched : Bool
  dispatched : Option (Option String × Args)
deriving DecidableEq

/-- Python `str.lower`, character-wise lowercasing. -/
def pyLower (s : String) : String :=
  ⟨s.data.map Char.toLower⟩

/-- Python `str.strip`: drop leading and trailing whitespace. -/
def pyStrip (s : String) : String :=
  ⟨((s.data.dropWhile Char.isWhitespace).reverse.dropWhile
      Char.isWhitespace).reverse⟩

/-- The special-command vocabulary (router.py line 101). -/
def CANCEL_COMMANDS : List String :=
  ["cancel", "reset", "clear", "start over"]

/-- The cancellation test of router.py line 101:
    `request.message.lower().strip() in [...]`. -/
def is_cancel_command (message : String) : Bool :=
  CANCEL_COMMANDS.contains (pyStrip (pyLower message))

/-- Python truthiness of an optional string (`if current_function and ...`). -/
def truthy_str : Option String → Bool
  | none => false
  | some s => s ≠ ""

/-- Python `str` applied to an optional string (f-string of `None`). -/
def pyStr : Option String → String
  | none => "None"
  | some s => s

/-- The executor environment: what `function_registry.execute_function`
    does on this turn for a given name and arguments (`.error` models a
    raised exception, including the missing-handler `KeyError`). -/
abbrev Executor := Option String → Args → Except String String

/-- Router lines 182-184: inject the ambient `restaurant_id` when the
    oracle's arguments lack it. -/
def inject_restaurant_id (args : Args) (restaurant_id : Int) : Args :=
  if hasKey args "restaurant_id" then args
  else args ++ [("restaurant_id", Val.int restaurant_id)]

/-- Router lines 188-220: the `call_function` dispatch and its two
    outcomes. -/
def handle_execution (store2 : Store) (groups_fetched : Bool)
    (name : Option String) (arguments : Args) :
    Except String String → ChatResponse × Store × Trace
  | .ok result =>
    let store3 : Store := { store2 with state := none }
    let store4 : Store :=
      { store3 with history := add_to_history store3.history "assistant" result }
    let store5 : Store := { store4 with context := none }
    ({ type := "result", reply := result, «function» := name,
       missing_fields := none },
     store5,
     { oracle_called := true, groups_fetched := groups_fetched,
       dispatched := some (name, arguments) })
  | .error e =>
    let error_msg := "Error executing " ++ pyStr name ++ ": " ++ e
    let store3 : Store :=
      { store2 with history := add_to_history store2.history "assistant" error_msg }
    ({ type := "error", reply := error_msg, «function» := none,
       missing_fields := none },
     store3,
     { oracle_called := true, groups_fetched := groups_fetched,
       dispatched := some (name, arguments) })

/-- Router lines 150-228: handle a validated LLM response.
    `current_function` is the one loaded from the stored state before
    this message; `store2` already has the user message appended. -/
def handle_llm_response (request : ChatRequest)
    (current_function : Option String) (store2 : Store)
    (groups_fetched : Bool) (execute : Executor)
    (llm_response : LLMResponse) : ChatResponse × Store × Trace :=
  if llm_response.type = "ask_user" then
    let new_state : SessionState :=
      { current_function := llm_response.current_function
        collected_arguments := llm_response.partial_arguments.getD []
        missing_fields := llm_response.missing_fields.getD []
        status := "collecting" }
    let store3 : Store := { store2 with state := some new_state }
    let store4 : Store :=
      { store3 with history :=
          add_to_history store3.history "assistant" (llm_response.message.getD "") }
    let store5 : Store :=
      if truthy_str current_function
          && (llm_response.current_function ≠ current_function : Bool) then
        { store4 with context := none }
      else store4
    ({ type := "ask_user", reply := llm_response.message.getD "",
       «function» := none, missing_fields := llm_response.missing_fields },
     store5,
     { oracle_called := true, groups_fetched := groups_fetched,
       dispatched := none })
  else if llm_response.type = "call_function" then
    let name := llm_response.name
    let arguments :=
      inject_restaurant_id (llm_response.arguments.getD []) request.restaurant_id
    handle_execution store2 groups_fetched name arguments
      (execute name arguments)
  else
    ({ type := "error",
       reply := "I didn't understand that. Could you please rephrase?",
       «function» := none, missing_fields := none },
     store2,
     { oracle_called := true, groups_fetched := groups_fetched,
       dispatched := none })

/-- Router lines 135-228: the oracle call's two outcomes.  On success the
    user message is appended to history before the response is handled. -/
def handle_llm_result (request : ChatRequest)
    (current_function : Option String) (store1 : Store)
    (groups_fetched : Bool) (execute : Executor) :
    Except String LLMResponse → ChatResponse × Store × Trace
  | .error e =>
    ({ type := "error", reply := "I encountered an error: " ++ e,
       «function» := none, missing_fields := none },
     store1,
     { oracle_called := true, groups_fetched := groups_fetched,
       dispatched := none })
  | .ok llm_response =>
    let store2 : Store :=
      { store1 with history := add_to_history store1.history "user" request.message }
    handle_llm_response request current_function store2 groups_fetched
      execute llm_response

/-- The fixed reset acknowledgment (router.py lines 103-107). -/
def reset_response : ChatResponse :=
  { type := "reset", reply := "Conversation cleared. What would you like to do?",
    «function» := none, missing_fields := none }

/-- `process_chat` (router.py lines 68-233) for one session: takes the
    request, the session's three records, and the opaque behaviour of
    the oracle, the backend groups endpoint and the executor on this
    turn; returns the response, the updated records, and the ghost
    trace. -/
def process_chat (request : ChatRequest) (store : Store)
    (oracle : OracleCall) (backend : GroupsResponse) (execute : Executor) :
    ChatResponse × Store × Trace :=
  if is_cancel_command request.message then
    (reset_response, clear_all,
     { oracle_called := false, groups_fetched := false, dispatched := none })
  else
    let session_state := get_session_state store
    let current_function := session_state.current_function
    let fr := fetch_restaurant_context store request.restaurant_id
      current_function backend
    handle_llm_result request current_function fr.2.1 fr.2.2 execute
      (get_completion oracle)

/-! Helper lemmas shared by the claim theorems. -/

/-- The context fetch never changes the stored session state. -/
theorem fetch_restaurant_context_state (store : Store) (rid : Int)
    (fn : Option String) (b : GroupsResponse) :
    (fetch_restaurant_context store rid fn b).2.1.state = store.state := by
  unfold fetch_restaurant_context
  rcases h : store.context with _ | c
  · simp only [h]
    split <;> rfl
  · simp [h]

/-- The context fetch never changes the stored history. -/
theorem fetch_restaurant_context_history (store : Store) (rid : Int)
    (fn : Option String) (b : GroupsResponse) :
    (fetch_restaurant_context store rid fn b).2.1.history = store.history := by
  unfold fetch_restaurant_context
  rcases h : store.context with _ | c
  · simp only [h]
    split <;> rfl
  · simp [h]

/-- One append never leaves more than 20 entries. -/
theorem add_to_history_length_le (history : List Msg) (role content : String) :
    (add_to_history history role content).length ≤ 20 := by
  simp only [add_to_history]
  split
  · rw [List.length_drop]
    omega
  · omega

/-- The direction of the spec's session invariant that the code keeps:
    a stored state carrying an active operation has status "collecting". -/
def state_part_inv : Option SessionState → Bool
  | none => true
  | some st => st.current_function.isNone || (st.status = "collecting")

/-- The invariant direction survives `handle_llm_response`. -/
theorem handle_llm_response_state_inv (request : ChatRequest)
    (cf : Option String) (store2 : Store) (gf : Bool) (execute : Executor)
    (llm : LLMResponse) (h : state_part_inv store2.state = true) :
    state_part_inv
      (handle_llm_response request cf store2 gf execute llm).2.1.state = true := by
  by_cases h1 : llm.type = "ask_user"
  · simp only [handle_llm_response, if_pos h1]
    split
    · simp [state_part_inv]
    · simp [state_part_inv]
  · by_cases h2 : llm.type = "call_function"
    · simp only [handle_llm_response, if_neg h1, if_pos h2]
      rcases execute llm.name
          (inject_restaurant_id (llm.arguments.getD []) request.restaurant_id)
        with e | r
      · simpa [handle_execution] using h
      · simp [handle_execution, state_part_inv]
    · simp only [handle_llm_response, if_neg h1, if_neg h2]
      exact h

/-- The invariant direction survives `handle_llm_result`. -/
theorem handle_llm_result_state_inv (request : ChatRequest)
    (cf : Option String) (store1 : Store) (gf : Bool) (execute : Executor)
    (res : Except String LLMResponse)
    (h : state_part_inv store1.state = true) :
    state_part_inv
      (handle_llm_result request cf store1 gf execute res).2.1.state = true := by
  cases res with
  | error e => simpa [handle_llm_result] using h
  | ok llm =>
    simp only [handle_llm_result]
    exact handle_llm_response_state_inv request cf _ gf execute llm (by simpa using h)

/-! Claim theorems. -/

/-- C1 counterexample: when the oracle reply is unparseable, the
    fallback ask_user outcome (which carries no current_function) is
    stored with status "collecting", so after this transition the
    session state has status Collecting with no active operation —
    refuting the claimed iff between Collecting and an active operation
    being set. -/
theorem collecting_state_without_function :
    (process_chat
        { session_id := none, restaurant_id := 7, owner_id := 3, message := "hi" }
        { state := none, history := [], context := none }
        (.ok .unparseable) { status := none, data_groups := none }
        (fun _ _ => .ok "done")).2.1.state =
      some { current_function := none, collected_arguments := [],
             missing_fields := [], status := "collecting" } := by
  decide

/-- C1 amended: after every transition of the orchestrator, one
    direction of the claimed invariant holds — any stored state with an
    active operation set has status "collecting" (never "idle") — but
    the converse does not: a stored state can have status "collecting"
    with current_function absent, when the oracle's ask_user outcome
    names no operation (for example the malformed-output fallback). -/
theorem active_function_implies_collecting_preserved
    (request : ChatRequest) (store : Store) (oracle : OracleCall)
    (backend : GroupsResponse) (execute : Executor)
    (h : state_part_inv store.state = true) :
    state_part_inv
      (process_chat request store oracle backend execute).2.1.state = true := by
  unfold process_chat
  split
  · rfl
  · exact handle_llm_result_state_inv request _ _ _ execute _
      (by rw [fetch_restaurant_context_state]; exact h)

/-- C1 witness: the preserved direction at a concrete mid-collection
    state and a concrete oracle reply. -/
theorem active_function_implies_collecting_preserved_check :
    state_part_inv
      (process_chat
        { session_id := none, restaurant_id := 7, owner_id := 3, message := "8.99" }
        { state := some { current_function := some "create_menu_item",
                          collected_arguments := [("name", .str "Soup")],
                          missing_fields := ["price"], status := "collecting" },
          history := [], context := none }
        (.ok .unparseable) { status := some "200", data_groups := some [] }
        (fun _ _ => .ok "done")).2.1.state = true :=
  active_function_implies_collecting_preserved
    { session_id := none, restaurant_id := 7, owner_id := 3, message := "8.99" }
    { state := some { current_function := some "create_menu_item",
                      collected_arguments := [("name", .str "Soup")],
                      missing_fields := ["price"], status := "collecting" },
      history := [], context := none }
    (.ok .unparseable) { status := some "200", data_groups := some [] }
    (fun _ _ => .ok "done") (by decide)

/-- C2 counterexample: "nevermind" (and "forget it") are not in the
    code's cancellation vocabulary; on "nevermind" the orchestrator does
    not return a reset but proceeds to call the oracle, refuting the
    claimed six-word vocabulary. -/
theorem nevermind_not_cancellation :
    (process_chat
        { session_id := none, restaurant_id := 7, owner_id := 3,
          message := "nevermind" }
        { state := some { current_function := some "create_menu_item",
                          collected_arguments := [], missing_fields := ["price"],
                          status := "collecting" },
          history := [], context := none }
        (.ok .unparseable) { status := none, data_groups := none }
        (fun _ _ => .ok "done")).1.type = "ask_user" ∧
    (process_chat
        { session_id := none, restaurant_id := 7, owner_id := 3,
          message := "nevermind" }
        { state := some { current_function := some "create_menu_item",
                          collected_arguments := [], missing_fields := ["price"],
                          status := "collecting" },
          history := [], context := none }
        (.ok .unparseable) { status := none, data_groups := none }
        (fun _ _ => .ok "done")).2.2.oracle_called = true ∧
    is_cancel_command "nevermind" = false ∧
    is_cancel_command "forget it" = false := by
  decide

/-- C2 amended: the cancellation vocabulary is the four phrases
    "cancel", "reset", "clear", "start over" (case-insensitive,
    trimmed); for those, from any prior state, the orchestrator clears
    state, history and cached context, returns the reset acknowledgment,
    and never invokes the oracle (the result is a fixed value,
    independent of the oracle, the backend and the executor). -/
theorem cancel_command_resets (request : ChatRequest) (store : Store)
    (oracle : OracleCall) (backend : GroupsResponse) (execute : Executor)
    (h : is_cancel_command request.message = true) :
    process_chat request store oracle backend execute =
      (reset_response, clear_all,
       { oracle_called := false, groups_fetched := false, dispatched := none }) := by
  unfold process_chat
  rw [if_pos h]

/-- C2 witness: " CANCEL " resets a mid-collection session. -/
theorem cancel_command_resets_check :
    process_chat
        { session_id := none, restaurant_id := 7, owner_id := 3,
          message := " CANCEL " }
        { state := some { current_function := some "create_menu_item",
                          collected_arguments := [], missing_fields := ["price"],
                          status := "collecting" },
          history := [{ role := "user", content := "create a roti" }],
          context := some { restaurant_id := 7, groups := [] } }
        (.ok .unparseable) { status := none, data_groups := none }
        (fun _ _ => .ok "done") =
      (reset_response, clear_all,
       { oracle_called := false, groups_fetched := false, dispatched := none }) :=
  cancel_command_resets
    { session_id := none, restaurant_id := 7, owner_id := 3, message := " CANCEL " }
    { state := some { current_function := some "create_menu_item",
                      collected_arguments := [], missing_fields := ["price"],
                      status := "collecting" },
      history := [{ role := "user", content := "create a roti" }],
      context := some { restaurant_id := 7, groups := [] } }
    (.ok .unparseable) { status := none, data_groups := none }
    (fun _ _ => .ok "done") (by decide)

/-- C8.  The conversation history is capped at 20 entries: after any
    append the length is at most 20 (hence any sequence of appends from
    a bounded history stays bounded), and appending to a full history of
    20 drops exactly the oldest entry, keeping the most recent entries
    in insertion order followed by the new one. -/
theorem history_capped_at_twenty (history : List Msg) (role content : String)
    (appends : List (String × String)) (init : List Msg) :
    (add_to_history history role content).length ≤ 20 ∧
    (history.length = 20 →
      add_to_history history role content =
        history.drop 1 ++ [{ role := role, content := content }]) ∧
    (init.length ≤ 20 →
      (appends.foldl (fun h p => add_to_history h p.1 p.2) init).length ≤ 20) := by
  refine ⟨add_to_history_length_le history role content, ?_, ?_⟩
  · intro h20
    simp only [add_to_history]
    have hlen : (history ++ [({ role := role, content := content } : Msg)]).length = 21 := by
      simp [h20]
    rw [hlen, if_pos (by omega)]
    have h1 : (21 : Nat) - 20 = 1 := by norm_num
    rw [h1]
    exact List.drop_append_of_le_length (by omega)
  · intro hinit
    induction appends generalizing init with
    | nil => simpa using hinit
    | cons p t ih => exact ih _ (add_to_history_length_le _ _ _)

/-- C8 witness: the cap and the eviction at a concrete full history. -/
theorem history_capped_at_twenty_check :
    (add_to_history (List.replicate 20 { role := "user", content := "m" })
        "user" "new").length ≤ 20 ∧
    ((List.replicate 20 ({ role := "user", content := "m" } : Msg)).length = 20 →
      add_to_history (List.replicate 20 { role := "user", content := "m" })
          "user" "new" =
        (List.replicate 20 ({ role := "user", content := "m" } : Msg)).drop 1 ++
          [{ role := "user", content := "new" }]) ∧
    (([] : List Msg).length ≤ 20 →
      (([("user", "a"), ("assistant", "b")] : List (String × String)).foldl
          (fun h p => add_to_history h p.1 p.2) ([] : List Msg)).length ≤ 20) :=
  history_capped_at_twenty (List.replicate 20 { role := "user", content := "m" })
    "user" "new" [("user", "a"), ("assistant", "b")] []

/-- C6 counterexample: oracle content that is valid JSON but not an
    object — here a list, which certainly lacks a recognized
    discriminator — is not normalized into an ask_user fallback: the
    adapter raises an "LLM processing error" exception and the
    orchestrator surfaces it as an error response, refuting the claim's
    "rather than raising an exception" universal. -/
theorem non_object_oracle_output_raises :
    get_completion (.ok (.non_object "list")) =
      .error "LLM processing error: 'list' object has no attribute 'get'" ∧
    (process_chat
        { session_id := none, restaurant_id := 7, owner_id := 3, message := "hi" }
        { state := none, history := [], context := none }
        (.ok (.non_object "list")) { status := none, data_groups := none }
        (fun _ _ => .ok "done")).1.type = "error" :=
  ⟨rfl, by decide⟩

/-- C6 amended: oracle output that is unparseable JSON, or that parses
    to an OBJECT without a recognized discriminator, is normalized by
    the adapter into a safe ask_user fallback (a generic prompt, no
    active operation, empty missing fields and partial arguments) and is
    returned as a value; but output that parses to a non-object JSON
    value — which also lacks a discriminator — instead raises an
    "LLM processing error" exception out of the adapter (which the
    orchestrator then surfaces as an error response, not a crash of the
    process). -/
theorem malformed_oracle_output_fallback (o : LLMOutput) (t : String)
    (h1 : o.type ≠ some "ask_user") (h2 : o.type ≠ some "call_function") :
    get_completion (.ok (.parsed o)) =
      .ok { type := "ask_user"
            message := some "I need more information. What would you like to do?"
            missing_fields := some []
            current_function := none
            partial_arguments := some []
            name := none
            arguments := none } ∧
    get_completion (.ok .unparseable) =
      .ok { type := "ask_user"
            message := some "I didn't understand that clearly. Could you rephrase?"
            missing_fields := some []
            current_function := none
            partial_arguments := some []
            name := none
            arguments := none } ∧
    get_completion (.ok (.non_object t)) =
      .error ("LLM processing error: '" ++ t ++ "' object has no attribute 'get'") := by
  refine ⟨?_, rfl, rfl⟩
  show Except.ok (validate_llm_response o) = _
  unfold validate_llm_response
  rw [if_neg h1, if_neg h2]

/-- C6 witness: a parsed object with an unknown discriminator, and a
    reply that parsed to a Python string. -/
theorem malformed_oracle_output_fallback_check :
    get_completion (.ok (.parsed
        { type := some "banana", message := some "x", missing_fields := none,
          current_function := some "create_menu_item",
          partial_arguments := none, name := none, arguments := none })) =
      .ok { type := "ask_user"
            message := some "I need more information. What would you like to do?"
            missing_fields := some []
            current_function := none
            partial_arguments := some []
            name := none
            arguments := none } ∧
    get_completion (.ok .unparseable) =
      .ok { type := "ask_user"
            message := some "I didn't understand that clearly. Could you rephrase?"
            missing_fields := some []
            current_function := none
            partial_arguments := some []
            name := none
            arguments := none } ∧
    get_completion (.ok (.non_object "str")) =
      .error ("LLM processing error: '" ++ "str" ++
        "' object has no attribute 'get'") :=
  malformed_oracle_output_fallback
    { type := some "banana", message := some "x", missing_fields := none,
      current_function := some "create_menu_item",
      partial_arguments := none, name := none, arguments := none }
    "str" (by decide) (by decide)

/-- C5.  On a cache miss with an operation outside the needs-grounding
    set, `fetch_restaurant_context` still writes a context record (with
    an empty groups list) and does not call the backend; any later fetch
    for that session, even for an operation that does need grounding,
    returns the cached record unchanged with no backend call. -/
theorem context_cached_once_per_session (store : Store) (rid rid2 : Int)
    (fn fn2 : Option String) (b1 b2 : GroupsResponse)
    (h1 : store.context = none) (h2 : needs_groups fn = false) :
    (fetch_restaurant_context store rid fn b1).2.2 = false ∧
    (fetch_restaurant_context store rid fn b1).2.1 =
      { store with context := some { restaurant_id := rid, groups := [] } } ∧
    fetch_restaurant_context (fetch_restaurant_context store rid fn b1).2.1
        rid2 fn2 b2 =
      ({ restaurant_id := rid, groups := [] },
       (fetch_restaurant_context store rid fn b1).2.1, false) := by
  have hfirst : fetch_restaurant_context store rid fn b1 =
      ({ restaurant_id := rid, groups := [] },
       { store with context := some { restaurant_id := rid, groups := [] } },
       false) := by
    unfold fetch_restaurant_context
    rw [h1]
    simp [h2]
  refine ⟨by rw [hfirst], by rw [hfirst], ?_⟩
  rw [hfirst]
  unfold fetch_restaurant_context
  rfl

/-- C5 witness: a dashboard-style operation misses the cache, an empty
    record is cached, and a later `create_menu_item` turn (which needs
    grounding) reuses it without any backend call. -/
theorem context_cached_once_per_session_check :
    (fetch_restaurant_context { state := none, history := [], context := none }
        7 (some "get_dashboard_data")
        { status := some "200",
          data_groups := some [{ g_id := some (.int 1), gname := some (.str "g"),
                                 g_icon := none }] }).2.2 = false ∧
    (fetch_restaurant_context { state := none, history := [], context := none }
        7 (some "get_dashboard_data")
        { status := some "200",
          data_groups := some [{ g_id := some (.int 1), gname := some (.str "g"),
                                 g_icon := none }] }).2.1 =
      { ({ state := none, history := [], context := none } : Store) with
          context := some { restaurant_id := 7, groups := [] } } ∧
    fetch_restaurant_context
        (fetch_restaurant_context { state := none, history := [], context := none }
          7 (some "get_dashboard_data")
          { status := some "200",
            data_groups := some [{ g_id := some (.int 1), gname := some (.str "g"),
                                   g_icon := none }] }).2.1
        7 (some "create_menu_item")
        { status := some "200",
          data_groups := some [{ g_id := some (.int 1), gname := some (.str "g"),
                                 g_icon := none }] } =
      ({ restaurant_id := 7, groups := [] },
       (fetch_restaurant_context { state := none, history := [], context := none }
          7 (some "get_dashboard_data")
          { status := some "200",
            data_groups := some [{ g_id := some (.int 1), gname := some (.str "g"),
                                   g_icon := none }] }).2.1,
       false) :=
  context_cached_once_per_session { state := none, history := [], context := none }
    7 7 (some "get_dashboard_data") (some "create_menu_item")
    { status := some "200",
      data_groups := some [{ g_id := some (.int 1), gname := some (.str "g"),
                             g_icon := none }] }
    { status := some "200",
      data_groups := some [{ g_id := some (.int 1), gname := some (.str "g"),
                             g_icon := none }] }
    (by decide) (by decide)

/-- C3 counterexample: a dispatch failure leaves the previously stored
    state untouched — still status "collecting" with its operation — so
    the session status is NOT set back to idle as claimed. -/
theorem execution_error_keeps_collecting :
    (process_chat
        { session_id := none, restaurant_id := 7, owner_id := 3, message := "go" }
        { state := some { current_function := some "create_menu_item",
                          collected_arguments := [], missing_fields := ["price"],
                          status := "collecting" },
          history := [], context := none }
        (.ok (.parsed { type := some "call_function", message := none,
                        missing_fields := none, current_function := none,
                        partial_arguments := none,
                        name := some "create_menu_item",
                        arguments := some [("name", .str "Soup")] }))
        { status := some "200", data_groups := some [] }
        (fun _ _ => .error "boom")).1.type = "error" ∧
    (process_chat
        { session_id := none, restaurant_id := 7, owner_id := 3, message := "go" }
        { state := some { current_function := some "create_menu_item",
                          collected_arguments := [], missing_fields := ["price"],
                          status := "collecting" },
          history := [], context := none }
        (.ok (.parsed { type := some "call_function", message := none,
                        missing_fields := none, current_function := none,
                        partial_arguments := none,
                        name := some "create_menu_item",
                        arguments := some [("name", .str "Soup")] }))
        { status := some "200", data_groups := some [] }
        (fun _ _ => .error "boom")).2.1.state =
      some { current_function := some "create_menu_item",
             collected_arguments := [], missing_fields := ["price"],
             status := "collecting" } := by
  decide

/-- C3 amended: when the dispatched executor raises, the orchestrator
    does not clear the session state wholesale — in fact it leaves the
    stored state record entirely unchanged (it is NOT set back to idle;
    the failed attempt is simply not retried) — appends the error text
    to the conversation history, and returns an error response. -/
theorem execution_error_state_untouched (request : ChatRequest)
    (store : Store) (oracle : OracleCall) (backend : GroupsResponse)
    (execute : Executor) (llm : LLMResponse) (e : String)
    (h1 : is_cancel_command request.message = false)
    (h2 : get_completion oracle = .ok llm)
    (h3 : llm.type = "call_function")
    (h4 : execute llm.name
        (inject_restaurant_id (llm.arguments.getD []) request.restaurant_id) =
      .error e) :
    (process_chat request store oracle backend execute).1.type = "error" ∧
    (process_chat request store oracle backend execute).1.reply =
      "Error executing " ++ pyStr llm.name ++ ": " ++ e ∧
    (process_chat request store oracle backend execute).2.1.state =
      store.state ∧
    (process_chat request store oracle backend execute).2.1.history =
      add_to_history (add_to_history store.history "user" request.message)
        "assistant" ("Error executing " ++ pyStr llm.name ++ ": " ++ e) := by
  have hnc : ¬ (is_cancel_command request.message = true) := by simp [h1]
  have hna : ¬ (llm.type = "ask_user") := by simp [h3]
  simp only [process_chat, if_neg hnc, h2, handle_llm_result,
    handle_llm_response, if_neg hna, if_pos h3, h4, handle_execution]
  refine ⟨?_, ?_, ?_, ?_⟩
  · trivial
  · trivial
  · exact fetch_restaurant_context_state store request.restaurant_id _ backend
  · rw [fetch_restaurant_context_history]

/-- C3 witness: the amended behaviour at a concrete failing dispatch. -/
theorem execution_error_state_untouched_check :
    (process_chat
        { session_id := none, restaurant_id := 7, owner_id := 3, message := "go" }
        { state := some { current_function := some "create_menu_item",
                          collected_arguments := [], missing_fields := ["price"],
                          status := "collecting" },
          history := [], context := none }
        (.ok (.parsed { type := some "call_function", message := none,
                        missing_fields := none, current_function := none,
                        partial_arguments := none,
                        name := some "get_menu_items",
                        arguments := some [] }))
        { status := some "200", data_groups := some [] }
        (fun _ _ => .error "boom")).1.type = "error" ∧
    (process_chat
        { session_id := none, restaurant_id := 7, owner_id := 3, message := "go" }
        { state := some { current_function := some "create_menu_item",
                          collected_arguments := [], missing_fields := ["price"],
                          status := "collecting" },
          history := [], context := none }
        (.ok (.parsed { type := some "call_function", message := none,
                        missing_fields := none, current_function := none,
                        partial_arguments := none,
                        name := some "get_menu_items",
                        arguments := some [] }))
        { status := some "200", data_groups := some [] }
        (fun _ _ => .error "boom")).1.reply =
      "Error executing " ++ pyStr (some "get_menu_items") ++ ": " ++ "boom" ∧
    (process_chat
        { session_id := none, restaurant_id := 7, owner_id := 3, message := "go" }
        { state := some { current_function := some "create_menu_item",
                          collected_arguments := [], missing_fields := ["price"],
                          status := "collecting" },
          history := [], context := none }
        (.ok (.parsed { type := some "call_function", message := none,
                        missing_fields := none, current_function := none,
                        partial_arguments := none,
                        name := some "get_menu_items",
                        arguments := some [] }))
        { status := some "200", data_groups := some [] }
        (fun _ _ => .error "boom")).2.1.state =
      ({ state := some { current_function := some "create_menu_item",
                         collected_arguments := [], missing_fields := ["price"],
                         status := "collecting" },
         history := [], context := none } : Store).state ∧
    (process_chat
        { session_id := none, restaurant_id := 7, owner_id := 3, message := "go" }
        { state := some { current_function := some "create_menu_item",
                          collected_arguments := [], missing_fields := ["price"],
                          status := "collecting" },
          history := [], context := none }
        (.ok (.parsed { type := some "call_function", message := none,
                        missing_fields := none, current_function := none,
                        partial_arguments := none,
                        name := some "get_menu_items",
                        arguments := some [] }))
        { status := some "200", data_groups := some [] }
        (fun _ _ => .error "boom")).2.1.history =
      add_to_history (add_to_history [] "user" "go") "assistant"
        ("Error executing " ++ pyStr (some "get_menu_items") ++ ": " ++ "boom") :=
  execution_error_state_untouched
    { session_id := none, restaurant_id := 7, owner_id := 3, message := "go" }
    { state := some { current_function := some "create_menu_item",
                      collected_arguments := [], missing_fields := ["price"],
                      status := "collecting" },
      history := [], context := none }
    (.ok (.parsed { type := some "call_function", message := none,
                    missing_fields := none, current_function := none,
                    partial_arguments := none,
                    name := some "get_menu_items",
                    arguments := some [] }))
    { status := some "200", data_groups := some [] }
    (fun _ _ => .error "boom")
    { type := "call_function", message := none, missing_fields := none,
      current_function := none, partial_arguments := none,
      name := some "get_menu_items", arguments := some [] }
    "boom" (by decide) (by rfl) (by decide) (by rfl)

/-- C4.  When an ask_user outcome names an active operation different
    from the one previously stored, the orchestrator clears the cached
    context (so the next context-dependent fetch refetches), stores the
    new operation as active with status "collecting", and answers with a
    regular ask_user response — the switch needs no cancel and no
    confirmation. -/
theorem context_switch_invalidates_cache (request : ChatRequest)
    (store : Store) (oracle : OracleCall) (backend : GroupsResponse)
    (execute : Executor) (llm : LLMResponse) (f : String)
    (h1 : is_cancel_command request.message = false)
    (h2 : get_completion oracle = .ok llm)
    (h3 : llm.type = "ask_user")
    (h4 : (get_session_state store).current_function = some f)
    (h5 : f ≠ "")
    (h6 : llm.current_function ≠ some f) :
    (process_chat request store oracle backend execute).2.1.context = none ∧
    (process_chat request store oracle backend execute).2.1.state =
      some { current_function := llm.current_function
             collected_arguments := llm.partial_arguments.getD []
             missing_fields := llm.missing_fields.getD []
             status := "collecting" } ∧
    (process_chat request store oracle backend execute).1.type = "ask_user" := by
  have hnc : ¬ (is_cancel_command request.message = true) := by simp [h1]
  have hsw : (truthy_str (get_session_state store).current_function &&
      (llm.current_function ≠ (get_session_state store).current_function : Bool)) =
      true := by
    rw [h4]
    simp [truthy_str, h5, h6]
  simp only [process_chat, if_neg hnc, h2, handle_llm_result,
    handle_llm_response, if_pos h3, hsw, if_pos trivial]
  refine ⟨?_, ?_, ?_⟩
  · trivial
  · trivial
  · trivial

/-- C4 witness: mid-collection for create_menu_item, the oracle switches
    to create_menu_group; the cached context is dropped and the state
    now collects for the new operation. -/
theorem context_switch_invalidates_cache_check :
    (process_chat
        { session_id := none, restaurant_id := 7, owner_id := 3,
          message := "actually create a group instead" }
        { state := some { current_function := some "create_menu_item",
                          collected_arguments := [("name", .str "Soup")],
                          missing_fields := ["price"], status := "collecting" },
          history := [], context := some { restaurant_id := 7, groups := [] } }
        (.ok (.parsed { type := some "ask_user", message := some "Which name?",
                        missing_fields := some ["gname"],
                        current_function := some "create_menu_group",
                        partial_arguments := some [], name := none,
                        arguments := none }))
        { status := none, data_groups := none }
        (fun _ _ => .ok "done")).2.1.context = none ∧
    (process_chat
        { session_id := none, restaurant_id := 7, owner_id := 3,
          message := "actually create a group instead" }
        { state := some { current_function := some "create_menu_item",
                          collected_arguments := [("name", .str "Soup")],
                          missing_fields := ["price"], status := "collecting" },
          history := [], context := some { restaurant_id := 7, groups := [] } }
        (.ok (.parsed { type := some "ask_user", message := some "Which name?",
                        missing_fields := some ["gname"],
                        current_function := some "create_menu_group",
                        partial_arguments := some [], name := none,
                        arguments := none }))
        { status := none, data_groups := none }
        (fun _ _ => .ok "done")).2.1.state =
      some { current_function :=
               ({ type := "ask_user", message := some "Which name?",
                  missing_fields := some ["gname"],
                  current_function := some "create_menu_group",
                  partial_arguments := some [], name := none,
                  arguments := none } : LLMResponse).current_function
             collected_arguments :=
               ({ type := "ask_user", message := some "Which name?",
                  missing_fields := some ["gname"],
                  current_function := some "create_menu_group",
                  partial_arguments := some [], name := none,
                  arguments := none } : LLMResponse).partial_arguments.getD []
             missing_fields :=
               ({ type := "ask_user", message := some "Which name?",
                  missing_fields := some ["gname"],
                  current_function := some "create_menu_group",
                  partial_arguments := some [], name := none,
                  arguments := none } : LLMResponse).missing_fields.getD []
             status := "collecting" } ∧
    (process_chat
        { session_id := none, restaurant_id := 7, owner_id := 3,
          message := "actually create a group instead" }
        { state := some { current_function := some "create_menu_item",
                          collected_arguments := [("name", .str "Soup")],
                          missing_fields := ["price"], status := "collecting" },
          history := [], context := some { restaurant_id := 7, groups := [] } }
        (.ok (.parsed { type := some "ask_user", message := some "Which name?",
                        missing_fields := some ["gname"],
                        current_function := some "create_menu_group",
                        partial_arguments := some [], name := none,
                        arguments := none }))
        { status := none, data_groups := none }
        (fun _ _ => .ok "done")).1.type = "ask_user" :=
  context_switch_invalidates_cache
    { session_id := none, restaurant_id := 7, owner_id := 3,
      message := "actually create a group instead" }
    { state := some { current_function := some "create_menu_item",
                      collected_arguments := [("name", .str "Soup")],
                      missing_fields := ["price"], status := "collecting" },
      history := [], context := some { restaurant_id := 7, groups := [] } }
    (.ok (.parsed { type := some "ask_user", message := some "Which name?",
                    missing_fields := some ["gname"],
                    current_function := some "create_menu_group",
                    partial_arguments := some [], name := none,
                    arguments := none }))
    { status := none, data_groups := none }
    (fun _ _ => .ok "done")
    { type := "ask_user", message := some "Which name?",
      missing_fields := some ["gname"],
      current_function := some "create_menu_group",
      partial_arguments := some [], name := none, arguments := none }
    "create_menu_item" (by decide) (by rfl) (by decide) (by decide)
    (by decide) (by decide)

/-- C7.  When the oracle round trip itself fails, the orchestrator
    returns an error response, leaves the stored session state exactly
    as it was, and the user's message is not appended to the history
    (history is written only after an oracle response is obtained). -/
theorem oracle_failure_leaves_session (request : ChatRequest) (store : Store)
    (backend : GroupsResponse) (execute : Executor) (e : String)
    (h1 : is_cancel_command request.message = false) :
    (process_chat request store (.transport_error e) backend execute).1.type =
      "error" ∧
    (process_chat request store (.transport_error e) backend execute).1.reply =
      "I encountered an error: " ++ ("LLM API error: " ++ e) ∧
    (process_chat request store (.transport_error e) backend execute).2.1.state =
      store.state ∧
    (process_chat request store (.transport_error e) backend
        execute).2.1.history = store.history := by
  have hnc : ¬ (is_cancel_command request.message = true) := by simp [h1]
  simp only [process_chat, if_neg hnc, get_completion, handle_llm_result]
  refine ⟨?_, ?_, ?_, ?_⟩
  · trivial
  · trivial
  · exact fetch_restaurant_context_state store request.restaurant_id _ backend
  · exact fetch_restaurant_context_history store request.restaurant_id _ backend

/-- C7 witness: a concrete timed-out oracle call. -/
theorem oracle_failure_leaves_session_check :
    (process_chat
        { session_id := none, restaurant_id := 7, owner_id := 3, message := "hello" }
        { state := some { current_function := some "create_menu_item",
                          collected_arguments := [], missing_fields := ["price"],
                          status := "collecting" },
          history := [{ role := "user", content := "create a roti" }],
          context := none }
        (.transport_error "timeout") { status := some "200", data_groups := some [] }
        (fun _ _ => .ok "done")).1.type = "error" ∧
    (process_chat
        { session_id := none, restaurant_id := 7, owner_id := 3, message := "hello" }
        { state := some { current_function := some "create_menu_item",
                          collected_arguments := [], missing_fields := ["price"],
                          status := "collecting" },
          history := [{ role := "user", content := "create a roti" }],
          context := none }
        (.transport_error "timeout") { status := some "200", data_groups := some [] }
        (fun _ _ => .ok "done")).1.reply =
      "I encountered an error: " ++ ("LLM API error: " ++ "timeout") ∧
    (process_chat
        { session_id := none, restaurant_id := 7, owner_id := 3, message := "hello" }
        { state := some { current_function := some "create_menu_item",
                          collected_arguments := [], missing_fields := ["price"],
                          status := "collecting" },
          history := [{ role := "user", content := "create a roti" }],
          context := none }
        (.transport_error "timeout") { status := some "200", data_groups := some [] }
        (fun _ _ => .ok "done")).2.1.state =
      ({ state := some { current_function := some "create_menu_item",
                         collected_arguments := [], missing_fields := ["price"],
                         status := "collecting" },
         history := [{ role := "user", content := "create a roti" }],
         context := none } : Store).state ∧
    (process_chat
        { session_id := none, restaurant_id := 7, owner_id := 3, message := "hello" }
        { state := some { current_function := some "create_menu_item",
                          collected_arguments := [], missing_fields := ["price"],
                          status := "collecting" },
          history := [{ role := "user", content := "create a roti" }],
          context := none }
        (.transport_error "timeout") { status := some "200", data_groups := some [] }
        (fun _ _ => .ok "done")).2.1.history =
      ({ state := some { current_function := some "create_menu_item",
                         collected_arguments := [], missing_fields := ["price"],
                         status := "collecting" },
         history := [{ role := "user", content := "create a roti" }],
         context := none } : Store).history :=
  oracle_failure_leaves_session
    { session_id := none, restaurant_id := 7, owner_id := 3, message := "hello" }
    { state := some { current_function := some "create_menu_item",
                      collected_arguments := [], missing_fields := ["price"],
                      status := "collecting" },
      history := [{ role := "user", content := "create a roti" }],
      context := none }
    { status := some "200", data_groups := some [] }
    (fun _ _ => .ok "done") "timeout" (by decide)

/-- Injected arguments always carry the restaurant identifier. -/
theorem hasKey_inject_restaurant_id (args : Args) (rid : Int) :
    hasKey (inject_restaurant_id args rid) "restaurant_id" = true := by
  unfold inject_restaurant_id
  split
  · assumption
  · simp [hasKey]

/-- C9.  On an Execute outcome the orchestrator dispatches exactly the
    oracle's arguments with the ambient restaurant identifier injected:
    the dispatched argument set always contains `restaurant_id`, and if
    the oracle's arguments already carried one it is left as-is. -/
theorem restaurant_id_injected_before_dispatch (request : ChatRequest)
    (store : Store) (oracle : OracleCall) (backend : GroupsResponse)
    (execute : Executor) (llm : LLMResponse)
    (h1 : is_cancel_command request.message = false)
    (h2 : get_completion oracle = .ok llm)
    (h3 : llm.type = "call_function") :
    (process_chat request store oracle backend execute).2.2.dispatched =
      some (llm.name,
        inject_restaurant_id (llm.arguments.getD []) request.restaurant_id) ∧
    hasKey (inject_restaurant_id (llm.arguments.getD []) request.restaurant_id)
      "restaurant_id" = true ∧
    (hasKey (llm.arguments.getD []) "restaurant_id" = true →
      inject_restaurant_id (llm.arguments.getD []) request.restaurant_id =
        llm.arguments.getD []) := by
  have hnc : ¬ (is_cancel_command request.message = true) := by simp [h1]
  have hna : ¬ (llm.type = "ask_user") := by simp [h3]
  refine ⟨?_, hasKey_inject_restaurant_id _ _, ?_⟩
  · simp only [process_chat, if_neg hnc, h2, handle_llm_result,
      handle_llm_response, if_neg hna, if_pos h3]
    rcases execute llm.name
        (inject_restaurant_id (llm.arguments.getD []) request.restaurant_id)
      with e | r
    · rfl
    · rfl
  · intro h
    unfold inject_restaurant_id
    rw [if_pos h]

/-- C9 witness: arguments without the identifier get it appended; a
    further concrete check shows an existing identifier is preserved. -/
theorem restaurant_id_injected_before_dispatch_check :
    (process_chat
        { session_id := none, restaurant_id := 7, owner_id := 3, message := "go" }
        { state := none, history := [], context := none }
        (.ok (.parsed { type := some "call_function", message := none,
                        missing_fields := none, current_function := none,
                        partial_arguments := none,
                        name := some "create_menu_item",
                        arguments := some [("name", .str "Soup")] }))
        { status := none, data_groups := none }
        (fun _ _ => .ok "done")).2.2.dispatched =
      some (some "create_menu_item",
        inject_restaurant_id [("name", .str "Soup")] 7) ∧
    hasKey (inject_restaurant_id [("name", .str "Soup")] 7)
      "restaurant_id" = true ∧
    (hasKey [("name", Val.str "Soup")] "restaurant_id" = true →
      inject_restaurant_id [("name", .str "Soup")] 7 =
        [("name", .str "Soup")]) :=
  restaurant_id_injected_before_dispatch
    { session_id := none, restaurant_id := 7, owner_id := 3, message := "go" }
    { state := none, history := [], context := none }
    (.ok (.parsed { type := some "call_function", message := none,
                    missing_fields := none, current_function := none,
                    partial_arguments := none,
                    name := some "create_menu_item",
                    arguments := some [("name", .str "Soup")] }))
    { status := none, data_groups := none }
    (fun _ _ => .ok "done")
    { type := "call_function", message := none, missing_fields := none,
      current_function := none, partial_arguments := none,
      name := some "create_menu_item",
      arguments := some [("name", .str "Soup")] }
    (by decide) (by rfl) (by decide)

/-- C10 counterexample: registering `create_menu_item` twice does not
    fail; the second registration silently replaces the first (the
    registry holds one entry carrying the second description), refuting
    that duplicate registration is rejected. -/
theorem duplicate_registration_replaces :
    lookup_function
        (register_function
          (register_function [] "create_menu_item"
            { description := some "first", parameters := some [] })
          "create_menu_item"
          { description := some "second", parameters := some [] })
        "create_menu_item" =
      some { name := "create_menu_item", description := "second",
             parameters := [] } ∧
    (register_function
        (register_function [] "create_menu_item"
          { description := some "first", parameters := some [] })
        "create_menu_item"
        { description := some "second", parameters := some [] }).length = 1 := by
  decide

/-- C10 amended: registering under any name always succeeds, and a
    lookup afterwards returns the newly registered spec — so a second
    registration under an existing name silently replaces the first
    instead of failing. -/
theorem register_function_silently_replaces (reg : Registry) (name : String)
    (spec : SpecInput) :
    lookup_function (register_function reg name spec) name =
      some (mk_function_spec name spec) := by
  induction reg with
  | nil => simp [register_function, lookup_function]
  | cons p t ih =>
    by_cases hp : p.1 = name
    · simp [register_function, lookup_function, hp]
    · by_cases ht : t.any (fun q => q.1 = name) = true
      · have hmap : register_function (p :: t) name spec =
            p :: register_function t name spec := by
          simp [register_function, hp, ht]
        rw [hmap]
        simp only [lookup_function, List.find?]
        rw [show (decide (p.1 = name)) = false by simp [hp]]
        exact ih
      · have happ : register_function (p :: t) name spec =
            p :: register_function t name spec := by
          simp [register_function, hp, ht]
        rw [happ]
        simp only [lookup_function, List.find?]
        rw [show (decide (p.1 = name)) = false by simp [hp]]
        exact ih

end Chatbot
